import Mathlib

/-!
Verification development for the dialogum repository.

Shallow embedding of the decision engine (src/gum/decision.py), the
attention estimator (src/gum/attention.py), the reconciliation engine
(src/gum/gum.py) and the observation batcher contract.  Python floats are
modelled as rationals, Python strings as Lean strings (lower-cased via
character lists), Python sets/dicts of ids as finite sets of naturals.
-/

/-! ## Small string helpers (Python `str.lower` and the `in` substring test) -/

/-- Lower-cased character list of a string (Python `s.lower()`). -/
def lowerL (s : String) : List Char := s.toList.map Char.toLower

/-- Python list/tuple prefix test on character lists. -/
def isPrefixL : List Char → List Char → Bool
  | [], _ => true
  | _ :: _, [] => false
  | a :: as, b :: bs => a == b && isPrefixL as bs

/-- Python `needle in haystack` contiguous-substring test on character lists. -/
def isInfixL (n : List Char) : List Char → Bool
  | [] => isPrefixL n []
  | b :: bs => isPrefixL n (b :: bs) || isInfixL n bs

/-! ## Decision engine (src/gum/decision.py) -/

/-- Modelled from the spec: config.py (class DecisionConfig) is not under
src/.  Fields are exactly those read by src/gum/decision.py: the six base
utilities, the high/low focus thresholds and their two multipliers (spec
section 6, Configuration). -/
structure DecisionConfig where
  u_action_goal_true : ℚ
  u_action_goal_false : ℚ
  u_no_action_goal_true : ℚ
  u_no_action_goal_false : ℚ
  u_dialogue_goal_true : ℚ
  u_dialogue_goal_false : ℚ
  high_focus_threshold : ℚ
  low_focus_threshold : ℚ
  high_focus_penalty_multiplier : ℚ
  low_focus_penalty_reduction : ℚ
deriving DecidableEq

/-- The utilities dictionary built in MixedInitiativeDecisionEngine.__init__
and copied/adjusted by adjust_utilities_for_attention. -/
structure Utilities where
  u_action_goal_true : ℚ
  u_action_goal_false : ℚ
  u_no_action_goal_true : ℚ
  u_no_action_goal_false : ℚ
  u_dialogue_goal_true : ℚ
  u_dialogue_goal_false : ℚ
deriving DecidableEq

/-- self.base_utilities as loaded from the config in __init__. -/
def base_utilities (cfg : DecisionConfig) : Utilities :=
  { u_action_goal_true := cfg.u_action_goal_true
    u_action_goal_false := cfg.u_action_goal_false
    u_no_action_goal_true := cfg.u_no_action_goal_true
    u_no_action_goal_false := cfg.u_no_action_goal_false
    u_dialogue_goal_true := cfg.u_dialogue_goal_true
    u_dialogue_goal_false := cfg.u_dialogue_goal_false }

/-- Modelled from the spec: models.py (class Proposition) is not under
src/.  A claim carries text, reasoning and an optional confidence score
(spec section 3: "confidence (1-10 or absent)"); only these fields are read
by the decision engine. -/
structure Proposition where
  text : String
  reasoning : String
  confidence : Option ℚ
deriving DecidableEq

/-- DecisionContext dataclass of src/gum/decision.py. -/
structure DecisionContext where
  proposition : Proposition
  user_attention_level : ℚ
  active_application : String
  idle_time_seconds : ℚ
deriving DecidableEq

/-- The three possible decisions of make_decision, in the enumeration
order of the utilities_dict built there. -/
inductive DecisionAction where
  | no_action
  | dialogue
  | autonomous_action
deriving DecidableEq

/-- The focus_apps set hard-coded in adjust_utilities_for_attention. -/
def decisionFocusApps : List String :=
  ["xcode", "vscode", "terminal", "intellij", "pycharm", "sublime"]

/-- adjust_utilities_for_attention (src/gum/decision.py lines 62-101):
optional +0.2 attention boost for focus apps (capped at 1), then the two
false-goal utilities are multiplied by the high-focus multiplier above the
high threshold, by the low-focus reduction below the low threshold, and
left unchanged otherwise. -/
def adjust_utilities_for_attention (cfg : DecisionConfig)
    (attention_level : ℚ) (active_app : String) : Utilities :=
  let attention_level :=
    if (decisionFocusApps.map String.toList).contains (lowerL active_app) then
      min 1 (attention_level + 0.2)
    else attention_level
  let utilities := base_utilities cfg
  if attention_level > cfg.high_focus_threshold then
    { utilities with
      u_action_goal_false := cfg.u_action_goal_false * cfg.high_focus_penalty_multiplier
      u_dialogue_goal_false := cfg.u_dialogue_goal_false * cfg.high_focus_penalty_multiplier }
  else if attention_level < cfg.low_focus_threshold then
    { utilities with
      u_action_goal_false := cfg.u_action_goal_false * cfg.low_focus_penalty_reduction
      u_dialogue_goal_false := cfg.u_dialogue_goal_false * cfg.low_focus_penalty_reduction }
  else utilities

/-- calculate_expected_utilities (src/gum/decision.py lines 103-131);
returns (eu_no_action, eu_dialogue, eu_action). -/
def calculate_expected_utilities (p_goal : ℚ) (utilities : Utilities) : ℚ × ℚ × ℚ :=
  let p_no_goal := 1 - p_goal
  (p_goal * utilities.u_no_action_goal_true + p_no_goal * utilities.u_no_action_goal_false,
   p_goal * utilities.u_dialogue_goal_true + p_no_goal * utilities.u_dialogue_goal_false,
   p_goal * utilities.u_action_goal_true + p_no_goal * utilities.u_action_goal_false)

/-- Python max(utilities_dict.keys(), key=...) over the insertion order
no_action, dialogue, autonomous_action: the running maximum is replaced
only on a strictly larger value, so the first maximal key wins. -/
def best_action (eu_no_action eu_dialogue eu_action : ℚ) : DecisionAction :=
  (([(DecisionAction.dialogue, eu_dialogue),
     (DecisionAction.autonomous_action, eu_action)]).foldl
    (fun acc x => if x.2 > acc.2 then x else acc)
    (DecisionAction.no_action, eu_no_action)).1

/-- The metadata dictionary returned by make_decision; the
expected_utilities sub-dictionary is flattened into its three entries. -/
structure DecisionMetadata where
  confidence : ℚ
  p_goal : ℚ
  attention_level : ℚ
  active_app : String
  eu_no_action : ℚ
  eu_dialogue : ℚ
  eu_autonomous_action : ℚ
  utilities_used : Utilities
  proposition_text : String
deriving DecidableEq

/-- make_decision (src/gum/decision.py lines 133-196), success path.
Note Python `confidence = context.proposition.confidence or 5`: both an
absent confidence and a falsy confidence of 0 become the default 5; the
value is then clamped into [1, 10]. -/
def make_decision (cfg : DecisionConfig) (context : DecisionContext) :
    DecisionAction × DecisionMetadata :=
  let confidence : ℚ :=
    match context.proposition.confidence with
    | none => 5
    | some c => if c = 0 then 5 else c
  let confidence := max 1 (min 10 confidence)
  let p_goal := confidence / 10
  let utilities :=
    adjust_utilities_for_attention cfg context.user_attention_level
      context.active_application
  let eus := calculate_expected_utilities p_goal utilities
  (best_action eus.1 eus.2.1 eus.2.2,
   { confidence := confidence
     p_goal := p_goal
     attention_level := context.user_attention_level
     active_app := context.active_application
     eu_no_action := eus.1
     eu_dialogue := eus.2.1
     eu_autonomous_action := eus.2.2
     utilities_used := utilities
     proposition_text := context.proposition.text })

/-- Expected utility of a given action, out of the three computed values. -/
def euOf (a : DecisionAction) (eu_no_action eu_dialogue eu_action : ℚ) : ℚ :=
  match a with
  | .no_action => eu_no_action
  | .dialogue => eu_dialogue
  | .autonomous_action => eu_action

/-- The interruptiveness order of spec section 8:
no_action < dialogue < autonomous_action. -/
def interruptiveness : DecisionAction → ℕ
  | .no_action => 0
  | .dialogue => 1
  | .autonomous_action => 2

lemma best_action_eq (x y z : ℚ) :
    best_action x y z =
      if y > x then (if z > y then .autonomous_action else .dialogue)
      else (if z > x then .autonomous_action else .no_action) := by
  unfold best_action
  simp only [List.foldl]
  by_cases h1 : y > x <;> by_cases h2 : z > y <;> by_cases h3 : z > x <;>
    simp [h1, h2, h3]

lemma best_action_spec (x y z : ℚ) :
    euOf (best_action x y z) x y z ≥ x ∧
    euOf (best_action x y z) x y z ≥ y ∧
    euOf (best_action x y z) x y z ≥ z ∧
    (best_action x y z = .dialogue → y > x) ∧
    (best_action x y z = .autonomous_action → z > x ∧ z > y) := by
  rw [best_action_eq]
  split_ifs with h1 h2 h2 <;> simp only [euOf] <;>
    refine ⟨by linarith, by linarith, by linarith, ?_, ?_⟩ <;>
      simp only [reduceCtorEq, false_implies, forall_const, imp_false,
        not_false_eq_true, true_implies] <;>
      first
        | (constructor <;> linarith)
        | linarith

/-- C5: for every p derived from confidence and every adjusted utility
table, the engine computes EU(A) = p*u(A,T) + (1-p)*u(A,F) for exactly the
three actions, make_decision returns an action of maximal expected utility
with ties broken in the enumeration order no_action, dialogue,
autonomous_action, and the returned metadata carries all three
expected-utility values and the adjusted utility table that was used. -/
theorem C5_make_decision_argmax (cfg : DecisionConfig) (ctx : DecisionContext) :
    calculate_expected_utilities (make_decision cfg ctx).2.p_goal
        (make_decision cfg ctx).2.utilities_used =
      ((make_decision cfg ctx).2.p_goal
          * (make_decision cfg ctx).2.utilities_used.u_no_action_goal_true
        + (1 - (make_decision cfg ctx).2.p_goal)
          * (make_decision cfg ctx).2.utilities_used.u_no_action_goal_false,
       (make_decision cfg ctx).2.p_goal
          * (make_decision cfg ctx).2.utilities_used.u_dialogue_goal_true
        + (1 - (make_decision cfg ctx).2.p_goal)
          * (make_decision cfg ctx).2.utilities_used.u_dialogue_goal_false,
       (make_decision cfg ctx).2.p_goal
          * (make_decision cfg ctx).2.utilities_used.u_action_goal_true
        + (1 - (make_decision cfg ctx).2.p_goal)
          * (make_decision cfg ctx).2.utilities_used.u_action_goal_false) ∧
    (make_decision cfg ctx).2.utilities_used =
      adjust_utilities_for_attention cfg ctx.user_attention_level
        ctx.active_application ∧
    ((make_decision cfg ctx).2.eu_no_action,
     (make_decision cfg ctx).2.eu_dialogue,
     (make_decision cfg ctx).2.eu_autonomous_action) =
      calculate_expected_utilities (make_decision cfg ctx).2.p_goal
        (make_decision cfg ctx).2.utilities_used ∧
    euOf (make_decision cfg ctx).1 (make_decision cfg ctx).2.eu_no_action
        (make_decision cfg ctx).2.eu_dialogue
        (make_decision cfg ctx).2.eu_autonomous_action ≥
      (make_decision cfg ctx).2.eu_no_action ∧
    euOf (make_decision cfg ctx).1 (make_decision cfg ctx).2.eu_no_action
        (make_decision cfg ctx).2.eu_dialogue
        (make_decision cfg ctx).2.eu_autonomous_action ≥
      (make_decision cfg ctx).2.eu_dialogue ∧
    euOf (make_decision cfg ctx).1 (make_decision cfg ctx).2.eu_no_action
        (make_decision cfg ctx).2.eu_dialogue
        (make_decision cfg ctx).2.eu_autonomous_action ≥
      (make_decision cfg ctx).2.eu_autonomous_action ∧
    ((make_decision cfg ctx).1 = .dialogue →
      (make_decision cfg ctx).2.eu_dialogue > (make_decision cfg ctx).2.eu_no_action) ∧
    ((make_decision cfg ctx).1 = .autonomous_action →
      (make_decision cfg ctx).2.eu_autonomous_action > (make_decision cfg ctx).2.eu_no_action ∧
      (make_decision cfg ctx).2.eu_autonomous_action > (make_decision cfg ctx).2.eu_dialogue) := by
  obtain ⟨h1, h2, h3, h4, h5⟩ :=
    best_action_spec (make_decision cfg ctx).2.eu_no_action
      (make_decision cfg ctx).2.eu_dialogue
      (make_decision cfg ctx).2.eu_autonomous_action
  exact ⟨rfl, rfl, rfl, h1, h2, h3, h4, h5⟩

/-- A fixed configuration used for concrete decision-engine inputs. -/
def cfgW : DecisionConfig :=
  { u_action_goal_true := 10
    u_action_goal_false := -20
    u_no_action_goal_true := 0
    u_no_action_goal_false := 2
    u_dialogue_goal_true := 5
    u_dialogue_goal_false := -5
    high_focus_threshold := 7/10
    low_focus_threshold := 3/10
    high_focus_penalty_multiplier := 3
    low_focus_penalty_reduction := 1/2 }

/-- A decision context whose claim carries the out-of-range confidence 0. -/
def ctxConfZero : DecisionContext :=
  { proposition := { text := "t", reasoning := "r", confidence := some 0 }
    user_attention_level := 1/2
    active_application := "safari"
    idle_time_seconds := 0 }

/-- C6 counterexample: the claim says every supplied confidence outside
[1,10] is clamped into [1,10], so a supplied confidence of 0 would have to
become 1 with p(G) = 1/10; but Python's `confidence or 5` treats the falsy
value 0 as absent, and make_decision actually uses confidence 5 with
p(G) = 1/2. -/
theorem C6_counterexample_confidence_zero :
    ctxConfZero.proposition.confidence = some 0 ∧
    ¬ ((1:ℚ) ≤ 0 ∧ (0:ℚ) ≤ 10) ∧
    max 1 (min 10 (0:ℚ)) = 1 ∧
    (make_decision cfgW ctxConfZero).2.confidence = 5 ∧
    (make_decision cfgW ctxConfZero).2.p_goal = 1/2 ∧
    (5:ℚ) ≠ 1 := by
  refine ⟨rfl, by norm_num, by norm_num, ?_, ?_, by norm_num⟩ <;>
    simp [make_decision, ctxConfZero] <;> norm_num

/-- C6 amended: make_decision is a total function; an absent confidence or
a supplied confidence of 0 (falsy in Python) defaults to 5, every other
supplied confidence is clamped into [1,10] before computing
p(G) = c/10, so the confidence actually used always lies in [1,10]. -/
theorem C6_make_decision_default_and_clamp (cfg : DecisionConfig)
    (ctx : DecisionContext) (c : ℚ) :
    1 ≤ (make_decision cfg ctx).2.confidence ∧
    (make_decision cfg ctx).2.confidence ≤ 10 ∧
    (make_decision cfg ctx).2.p_goal = (make_decision cfg ctx).2.confidence / 10 ∧
    (ctx.proposition.confidence = none → (make_decision cfg ctx).2.confidence = 5) ∧
    (ctx.proposition.confidence = some 0 → (make_decision cfg ctx).2.confidence = 5) ∧
    (ctx.proposition.confidence = some c → c ≠ 0 →
      (make_decision cfg ctx).2.confidence = max 1 (min 10 c)) := by
  have hconf : (make_decision cfg ctx).2.confidence =
      max 1 (min 10 (match ctx.proposition.confidence with
        | none => (5:ℚ)
        | some c => if c = 0 then 5 else c)) := rfl
  have hp : (make_decision cfg ctx).2.p_goal =
      (make_decision cfg ctx).2.confidence / 10 := rfl
  refine ⟨?_, ?_, hp, ?_, ?_, ?_⟩
  · rw [hconf]; exact le_max_left _ _
  · rw [hconf]; exact max_le (by norm_num) (min_le_left _ _)
  · intro h; rw [hconf, h]; norm_num [min_def, max_def]
  · intro h; rw [hconf, h]; norm_num [min_def, max_def]
  · intro h hc0; rw [hconf, h]; simp [hc0]

/-- Witness for C6 amended at a concrete context with confidence 11,
which is clamped to 10. -/
theorem C6_witness :
    1 ≤ (make_decision cfgW
          { proposition := { text := "t", reasoning := "r", confidence := some 11 }
            user_attention_level := 1/2
            active_application := "safari"
            idle_time_seconds := 0 }).2.confidence ∧
    (make_decision cfgW
          { proposition := { text := "t", reasoning := "r", confidence := some 11 }
            user_attention_level := 1/2
            active_application := "safari"
            idle_time_seconds := 0 }).2.confidence ≤ 10 ∧
    (make_decision cfgW
          { proposition := { text := "t", reasoning := "r", confidence := some 11 }
            user_attention_level := 1/2
            active_application := "safari"
            idle_time_seconds := 0 }).2.p_goal =
      (make_decision cfgW
          { proposition := { text := "t", reasoning := "r", confidence := some 11 }
            user_attention_level := 1/2
            active_application := "safari"
            idle_time_seconds := 0 }).2.confidence / 10 ∧
    ((some (11:ℚ) : Option ℚ) = none → (make_decision cfgW
          { proposition := { text := "t", reasoning := "r", confidence := some 11 }
            user_attention_level := 1/2
            active_application := "safari"
            idle_time_seconds := 0 }).2.confidence = 5) ∧
    ((some (11:ℚ) : Option ℚ) = some 0 → (make_decision cfgW
          { proposition := { text := "t", reasoning := "r", confidence := some 11 }
            user_attention_level := 1/2
            active_application := "safari"
            idle_time_seconds := 0 }).2.confidence = 5) ∧
    ((some (11:ℚ) : Option ℚ) = some 11 → (11:ℚ) ≠ 0 → (make_decision cfgW
          { proposition := { text := "t", reasoning := "r", confidence := some 11 }
            user_attention_level := 1/2
            active_application := "safari"
            idle_time_seconds := 0 }).2.confidence = max 1 (min 10 11)) :=
  C6_make_decision_default_and_clamp cfgW
    { proposition := { text := "t", reasoning := "r", confidence := some 11 }
      user_attention_level := 1/2
      active_application := "safari"
      idle_time_seconds := 0 } 11

/-- The attention level after the focus-app bonus applied at the top of
adjust_utilities_for_attention. -/
def effAttention (attention_level : ℚ) (active_app : String) : ℚ :=
  if (decisionFocusApps.map String.toList).contains (lowerL active_app) then
    min 1 (attention_level + 0.2)
  else attention_level

/-- The factor applied to both false-goal utilities as a function of the
boosted attention level. -/
def focusMultiplier (cfg : DecisionConfig) (a : ℚ) : ℚ :=
  if a > cfg.high_focus_threshold then cfg.high_focus_penalty_multiplier
  else if a < cfg.low_focus_threshold then cfg.low_focus_penalty_reduction
  else 1

lemma adjust_eq_multiplier (cfg : DecisionConfig) (f : ℚ) (app : String) :
    adjust_utilities_for_attention cfg f app =
      { base_utilities cfg with
        u_action_goal_false :=
          cfg.u_action_goal_false * focusMultiplier cfg (effAttention f app)
        u_dialogue_goal_false :=
          cfg.u_dialogue_goal_false * focusMultiplier cfg (effAttention f app) } := by
  simp only [adjust_utilities_for_attention, focusMultiplier, effAttention]
  split_ifs <;> first
    | rfl
    | (rw [mul_one, mul_one]; rfl)

lemma effAttention_mono (app : String) {f1 f2 : ℚ} (h : f1 ≤ f2) :
    effAttention f1 app ≤ effAttention f2 app := by
  unfold effAttention
  split_ifs
  · exact min_le_min le_rfl (by linarith)
  · exact h

lemma focusMultiplier_mono (cfg : DecisionConfig)
    (hAmp : 1 < cfg.high_focus_penalty_multiplier)
    (hDamp : cfg.low_focus_penalty_reduction < 1)
    {a1 a2 : ℚ} (h : a1 ≤ a2) :
    focusMultiplier cfg a1 ≤ focusMultiplier cfg a2 := by
  unfold focusMultiplier
  split_ifs <;> linarith

lemma best_action_rank_mono (x y1 z1 y2 z2 : ℚ)
    (hy : y2 ≤ y1) (hz : z2 ≤ z1) (hzy : z2 - y2 ≤ z1 - y1) :
    interruptiveness (best_action x y2 z2) ≤ interruptiveness (best_action x y1 z1) := by
  rw [best_action_eq, best_action_eq]
  split_ifs <;> simp [interruptiveness] <;> linarith

/-- The probability p(G) computed by make_decision from a claim. -/
def pGoalOf (p : Proposition) : ℚ :=
  (max 1 (min 10 (match p.confidence with
    | none => (5:ℚ)
    | some c => if c = 0 then 5 else c))) / 10

lemma pGoalOf_le_one (p : Proposition) : pGoalOf p ≤ 1 := by
  unfold pGoalOf
  have h : max 1 (min 10 (match p.confidence with
      | none => (5:ℚ)
      | some c => if c = 0 then 5 else c)) ≤ 10 :=
    max_le (by norm_num) (min_le_left _ _)
  linarith

lemma make_decision_fst (cfg : DecisionConfig) (ctx : DecisionContext) :
    (make_decision cfg ctx).1 =
      best_action
        (pGoalOf ctx.proposition * cfg.u_no_action_goal_true
          + (1 - pGoalOf ctx.proposition) * cfg.u_no_action_goal_false)
        (pGoalOf ctx.proposition * cfg.u_dialogue_goal_true
          + (1 - pGoalOf ctx.proposition)
            * (cfg.u_dialogue_goal_false
                * focusMultiplier cfg
                    (effAttention ctx.user_attention_level ctx.active_application)))
        (pGoalOf ctx.proposition * cfg.u_action_goal_true
          + (1 - pGoalOf ctx.proposition)
            * (cfg.u_action_goal_false
                * focusMultiplier cfg
                    (effAttention ctx.user_attention_level ctx.active_application))) := by
  unfold make_decision pGoalOf
  rw [adjust_eq_multiplier]
  rfl

/-- C7 amended: for every fixed configuration in which both false-goal
utilities are negative, the autonomous-action false-goal penalty is at
least as harsh as the dialogue one (u(action,F) <= u(dialogue,F), as spec
section 4.3 stipulates for the base utilities), the high-focus
amplification factor exceeds 1 and the low-focus dampening factor is below
1, and for every fixed claim and active application, the decision is
monotonically conservative in focus: focus f2 >= f1 implies the action
chosen at f2 is not more interruptive than the one chosen at f1 under the
order no_action <= dialogue <= autonomous_action.  Without the added
penalty-ordering hypothesis the property fails (see the counterexample). -/
theorem C7_focus_monotone_conservatism (cfg : DecisionConfig)
    (hAF : cfg.u_action_goal_false < 0)
    (hDF : cfg.u_dialogue_goal_false < 0)
    (hAmp : 1 < cfg.high_focus_penalty_multiplier)
    (hDamp : cfg.low_focus_penalty_reduction < 1)
    (hOrd : cfg.u_action_goal_false ≤ cfg.u_dialogue_goal_false)
    (p : Proposition) (app : String) (i1 i2 f1 f2 : ℚ) (hf : f1 ≤ f2) :
    interruptiveness (make_decision cfg
        { proposition := p, user_attention_level := f2
          active_application := app, idle_time_seconds := i2 }).1 ≤
      interruptiveness (make_decision cfg
        { proposition := p, user_attention_level := f1
          active_application := app, idle_time_seconds := i1 }).1 := by
  rw [make_decision_fst, make_decision_fst]
  have hp1 : 0 ≤ 1 - pGoalOf p := by
    have := pGoalOf_le_one p
    linarith
  have hm : focusMultiplier cfg (effAttention f1 app) ≤
      focusMultiplier cfg (effAttention f2 app) :=
    focusMultiplier_mono cfg hAmp hDamp (effAttention_mono app hf)
  set pg := pGoalOf p
  set m1 := focusMultiplier cfg (effAttention f1 app)
  set m2 := focusMultiplier cfg (effAttention f2 app)
  apply best_action_rank_mono
  · nlinarith [mul_nonneg (mul_nonneg hp1 (sub_nonneg.2 hm))
      (neg_nonneg.2 (le_of_lt hDF))]
  · nlinarith [mul_nonneg (mul_nonneg hp1 (sub_nonneg.2 hm))
      (neg_nonneg.2 (le_of_lt hAF))]
  · nlinarith [mul_nonneg (mul_nonneg hp1 (sub_nonneg.2 hm))
      (sub_nonneg.2 hOrd)]

/-- Witness for C7 amended: cfgW satisfies all the hypotheses; raising
focus from 1/10 to 9/10 does not make the decision more interruptive. -/
theorem C7_witness :
    interruptiveness (make_decision cfgW
        { proposition := { text := "t", reasoning := "r", confidence := some 5 }
          user_attention_level := 9/10
          active_application := "safari", idle_time_seconds := 0 }).1 ≤
      interruptiveness (make_decision cfgW
        { proposition := { text := "t", reasoning := "r", confidence := some 5 }
          user_attention_level := 1/10
          active_application := "safari", idle_time_seconds := 0 }).1 :=
  C7_focus_monotone_conservatism cfgW (by norm_num [cfgW]) (by norm_num [cfgW])
    (by norm_num [cfgW]) (by norm_num [cfgW]) (by norm_num [cfgW])
    { text := "t", reasoning := "r", confidence := some 5 } "safari"
    0 0 (1/10) (9/10) (by norm_num)

/-- The configuration of the C7 counterexample: both false-goal utilities
are negative, the amplification factor is 2 > 1, the dampening factor is
1/2 < 1, but the dialogue penalty (-10) is harsher than the
autonomous-action penalty (-1). -/
def cfgCE : DecisionConfig :=
  { u_action_goal_true := 4
    u_action_goal_false := -1
    u_no_action_goal_true := 0
    u_no_action_goal_false := 0
    u_dialogue_goal_true := 10
    u_dialogue_goal_false := -10
    high_focus_threshold := 7/10
    low_focus_threshold := 3/10
    high_focus_penalty_multiplier := 2
    low_focus_penalty_reduction := 1/2 }

lemma safari_not_focus_app :
    (decisionFocusApps.map String.toList).contains (lowerL "safari") = false := by
  decide

/-- C7 counterexample: under cfgCE (both false-goal utilities negative,
amplification 2 > 1, dampening 1/2 < 1) with confidence 5 and app
"safari", raising focus from 1/10 to 9/10 moves the decision from
dialogue to autonomous_action, a strictly more interruptive action, so
the claim as stated is false. -/
theorem C7_counterexample :
    cfgCE.u_action_goal_false < 0 ∧
    cfgCE.u_dialogue_goal_false < 0 ∧
    1 < cfgCE.high_focus_penalty_multiplier ∧
    cfgCE.low_focus_penalty_reduction < 1 ∧
    (1/10 : ℚ) ≤ 9/10 ∧
    (make_decision cfgCE
        { proposition := { text := "t", reasoning := "r", confidence := some 5 }
          user_attention_level := 1/10
          active_application := "safari", idle_time_seconds := 0 }).1 =
      DecisionAction.dialogue ∧
    (make_decision cfgCE
        { proposition := { text := "t", reasoning := "r", confidence := some 5 }
          user_attention_level := 9/10
          active_application := "safari", idle_time_seconds := 0 }).1 =
      DecisionAction.autonomous_action ∧
    ¬ interruptiveness DecisionAction.autonomous_action ≤
        interruptiveness DecisionAction.dialogue := by
  refine ⟨by norm_num [cfgCE], by norm_num [cfgCE], by norm_num [cfgCE],
    by norm_num [cfgCE], by norm_num, ?_, ?_, by simp [interruptiveness]⟩ <;>
  · rw [make_decision_fst]
    rw [show effAttention _ "safari" = _ from if_neg (by rw [safari_not_focus_app]; simp)]
    rw [best_action_eq]
    norm_num [pGoalOf, focusMultiplier, cfgCE]

/-! ## Attention estimator (src/gum/attention.py) -/

/-- self.focus_apps of AttentionMonitor.__init__. -/
def focus_apps : List String :=
  ["xcode", "visual studio code", "vscode", "intellij", "pycharm",
   "terminal", "iterm", "sublime text", "vim", "emacs", "atom",
   "android studio", "eclipse", "netbeans", "code", "phpstorm"]

/-- self.casual_apps of AttentionMonitor.__init__. -/
def casual_apps : List String :=
  ["safari", "chrome", "firefox", "spotify", "music", "youtube",
   "slack", "discord", "messages", "facetime", "zoom", "teams",
   "netflix", "hulu", "instagram", "facebook", "twitter"]

/-- classify_app_focus_level (src/gum/attention.py lines 125-153):
exact membership in the focus set, then exact membership in the casual
set, then a bidirectional-substring pass over the focus set, then over
the casual set, and 0.5 for unknown apps. -/
def classify_app_focus_level (app_name : String) : ℚ :=
  let app_lower := lowerL app_name
  if (focus_apps.map String.toList).contains app_lower then 0.9
  else if (casual_apps.map String.toList).contains app_lower then 0.2
  else if (focus_apps.map String.toList).any
      (fun fa => isInfixL fa app_lower || isInfixL app_lower fa) then 0.9
  else if (casual_apps.map String.toList).any
      (fun ca => isInfixL ca app_lower || isInfixL app_lower ca) then 0.2
  else 0.5

/-- C10: classify_app_focus_level returns exactly one of 0.9, 0.2 and
0.5; exact-name matches are checked before substring matches, and among
substring matches the focus set takes precedence over the casual set, so
a name substring-matching both sets without exactly matching either is
scored 0.9. -/
theorem C10_classify_app_range_and_precedence (app : String) :
    (classify_app_focus_level app = 0.9 ∨ classify_app_focus_level app = 0.2 ∨
      classify_app_focus_level app = 0.5) ∧
    ((focus_apps.map String.toList).contains (lowerL app) = true →
      classify_app_focus_level app = 0.9) ∧
    ((focus_apps.map String.toList).contains (lowerL app) = false →
      (casual_apps.map String.toList).contains (lowerL app) = true →
      classify_app_focus_level app = 0.2) ∧
    ((focus_apps.map String.toList).contains (lowerL app) = false →
      (casual_apps.map String.toList).contains (lowerL app) = false →
      (focus_apps.map String.toList).any
        (fun fa => isInfixL fa (lowerL app) || isInfixL (lowerL app) fa) = true →
      classify_app_focus_level app = 0.9) := by
  simp only [classify_app_focus_level]
  split_ifs with h1 h2 h3 h4 <;>
    refine ⟨by simp, ?_, ?_, ?_⟩ <;> simp_all

/-- Witness for C10 at the concrete name "vim zoom", which exactly
matches neither set but substring-matches both ("vim" is a focus app,
"zoom" a casual app): it is scored 0.9. -/
theorem C10_witness :
    (focus_apps.map String.toList).contains (lowerL "vim zoom") = false ∧
    (casual_apps.map String.toList).contains (lowerL "vim zoom") = false ∧
    (focus_apps.map String.toList).any
      (fun fa => isInfixL fa (lowerL "vim zoom") || isInfixL (lowerL "vim zoom") fa) = true ∧
    (casual_apps.map String.toList).any
      (fun ca => isInfixL ca (lowerL "vim zoom") || isInfixL (lowerL "vim zoom") ca) = true ∧
    classify_app_focus_level "vim zoom" = 0.9 :=
  ⟨by decide, by decide, by decide, by decide,
    (C10_classify_app_range_and_precedence "vim zoom").2.2.2
      (by decide) (by decide) (by decide)⟩

/-- The mutable monitor state and environment readings consumed by one
call of calculate_focus_level: the current wall clock, the time of the
last recorded activity, the timestamps of the events in
activity_history, the active application reported by the OS query, and
the app-switch bookkeeping fields. -/
structure AttentionInputs where
  now : ℚ
  last_activity_time : ℚ
  activity_history : List ℚ
  current_app : String
  last_active_app : String
  app_switch_count : ℕ
  last_app_check_time : ℚ
deriving DecidableEq

/-- idle_time of calculate_focus_level (line 184). -/
def idle_time (s : AttentionInputs) : ℚ := s.now - s.last_activity_time

/-- recent_activity of calculate_focus_level (lines 187-189): events with
timestamp strictly beyond the 2-minute cutoff. -/
def recent_activity_count (s : AttentionInputs) : ℕ :=
  (s.activity_history.filter (fun t => decide (s.now - 120 < t))).length

/-- The app-switch counter after the bump on lines 192-194. -/
def updated_app_switch_count (s : AttentionInputs) : ℕ :=
  if s.current_app ≠ s.last_active_app ∧ s.current_app ≠ "unknown" then
    s.app_switch_count + 1
  else s.app_switch_count

/-- switch_frequency of calculate_focus_level (lines 196-202): switches
per minute once at least 60 seconds passed since the last reset, else 0. -/
def switch_frequency (s : AttentionInputs) : ℚ :=
  if s.now - s.last_app_check_time ≥ 60 then
    (updated_app_switch_count s : ℚ) / ((s.now - s.last_app_check_time) / 60)
  else 0

/-- calculate_focus_level (src/gum/attention.py lines 170-241): combine
the app score (70%) and the capped activity factor (30%), apply the idle
penalty beyond the 30-second grace period and the switch penalty beyond
2 switches per minute, and clamp into [0,1]. -/
def calculate_focus_level (s : AttentionInputs) : ℚ :=
  let app_focus := classify_app_focus_level s.current_app
  let idle := idle_time s
  let activity_factor := min 1 ((recent_activity_count s : ℚ) / 20)
  let focus_score := app_focus * 0.7 + activity_factor * 0.3
  let focus_score :=
    if idle > 30 then focus_score * (1 - min 0.8 ((idle - 30) / 300))
    else focus_score
  let focus_score :=
    if switch_frequency s > 2 then
      focus_score * (1 - min 0.5 ((switch_frequency s - 2) / 10))
    else focus_score
  max 0 (min 1 focus_score)

/-- The idle penalty in the words of the claim: zero within the grace
period, otherwise growing with idle duration up to a capped maximum. -/
def spec_idle_penalty (idle : ℚ) : ℚ :=
  if idle ≤ 30 then 0 else min 0.8 ((idle - 30) / 300)

/-- The switch penalty in the words of the claim: zero unless the
app-switch rate exceeds its threshold, then capped. -/
def spec_switch_penalty (rate : ℚ) : ℚ :=
  if rate ≤ 2 then 0 else min 0.5 ((rate - 2) / 10)

/-- The activity factor in the words of the claim: the recent activity
count linearly scaled to a cap. -/
def spec_activity_factor (count : ℕ) : ℚ := min 1 ((count : ℚ) / 20)

/-- The closed-form focus formula stated by the claim:
clamp(((0.7*app + 0.3*activity)*(1-idle_penalty))*(1-switch_penalty), 0, 1). -/
def spec_focus_formula (app : ℚ) (count : ℕ) (idle rate : ℚ) : ℚ :=
  max 0 (min 1
    (((0.7 * app + 0.3 * spec_activity_factor count) * (1 - spec_idle_penalty idle))
      * (1 - spec_switch_penalty rate)))

/-- C9: for every state of the attention monitor the computed focus level
equals the claimed clamp formula, with the activity factor the capped
count of events in the last 2 minutes, the idle penalty zero within the
grace period and otherwise capped, and the switch penalty zero unless the
switch rate exceeds its threshold; hence the result always lies in [0,1]. -/
theorem C9_calculate_focus_level_formula (s : AttentionInputs) :
    calculate_focus_level s =
      spec_focus_formula (classify_app_focus_level s.current_app)
        (recent_activity_count s) (idle_time s) (switch_frequency s) ∧
    0 ≤ calculate_focus_level s ∧ calculate_focus_level s ≤ 1 := by
  refine ⟨?_, ?_, ?_⟩
  · simp only [calculate_focus_level, spec_focus_formula, spec_idle_penalty,
      spec_switch_penalty, spec_activity_factor]
    split_ifs <;> first
      | (exfalso; linarith)
      | (refine congrArg (fun t => max 0 (min 1 t)) ?_; ring)
  · exact le_max_left 0 _
  · exact max_le (by norm_num) (min_le_left _ _)

/-! ## Reconciliation engine (src/gum/gum.py) -/

/-- One entry of RelationSchema.relations as consumed by
_filter_propositions: a source id, a label string and an optional list of
target ids. -/
structure Relation where
  source : ℕ
  label : String
  target : Option (List ℕ)
deriving DecidableEq

/-- One iteration of the labelling loop of _filter_propositions
(src/gum/gum.py lines 414-422): IDENTICAL and SIMILAR collect the source
and all targets, every other label collects only the source. -/
def bucketStep (acc : Finset ℕ × Finset ℕ × Finset ℕ) (r : Relation) :
    Finset ℕ × Finset ℕ × Finset ℕ :=
  if r.label = "IDENTICAL" then
    (insert r.source acc.1 ∪ (r.target.getD []).toFinset, acc.2.1, acc.2.2)
  else if r.label = "SIMILAR" then
    (acc.1, insert r.source acc.2.1 ∪ (r.target.getD []).toFinset, acc.2.2)
  else
    (acc.1, acc.2.1, insert r.source acc.2.2)

/-- The ident, sim, unrel sets accumulated over data.relations. -/
def relationBuckets (relations : List Relation) : Finset ℕ × Finset ℕ × Finset ℕ :=
  relations.foldl bucketStep (∅, ∅, ∅)

/-- _filter_propositions (src/gum/gum.py lines 382-434) at the level of
claim ids: empty pool short-circuits; otherwise the label sets are
intersected with the known pool ids and returned with the strict
precedence IDENTICAL, then SIMILAR minus IDENTICAL, then UNRELATED minus
both. -/
def filter_propositions (pool : List ℕ) (relations : List Relation) :
    Finset ℕ × Finset ℕ × Finset ℕ :=
  if pool = [] then (∅, ∅, ∅)
  else
    let b := relationBuckets relations
    let valid := pool.toFinset
    let ident := b.1 ∩ valid
    let sim := b.2.1 ∩ valid
    let unrel := b.2.2 ∩ valid
    (ident, sim \ ident, (unrel \ ident) \ sim)

/-- A claim id labeled IDENTICAL by some relation (as source or target). -/
def labeledIdentical (relations : List Relation) (i : ℕ) : Prop :=
  ∃ r ∈ relations, r.label = "IDENTICAL" ∧ (i = r.source ∨ i ∈ r.target.getD [])

/-- A claim id labeled SIMILAR by some relation (as source or target). -/
def labeledSimilar (relations : List Relation) (i : ℕ) : Prop :=
  ∃ r ∈ relations, r.label = "SIMILAR" ∧ (i = r.source ∨ i ∈ r.target.getD [])

lemma buckets_fst_mem (relations : List Relation)
    (acc : Finset ℕ × Finset ℕ × Finset ℕ) (i : ℕ) :
    i ∈ (relations.foldl bucketStep acc).1 ↔
      i ∈ acc.1 ∨ labeledIdentical relations i := by
  induction relations generalizing acc with
  | nil => simp [labeledIdentical]
  | cons r rs ih =>
    rw [List.foldl_cons, ih]
    unfold bucketStep labeledIdentical
    split_ifs with h1 h2 <;>
      simp_all [labeledIdentical, or_assoc] <;> aesop

lemma buckets_snd_mem (relations : List Relation)
    (acc : Finset ℕ × Finset ℕ × Finset ℕ) (i : ℕ) :
    i ∈ (relations.foldl bucketStep acc).2.1 ↔
      i ∈ acc.2.1 ∨ labeledSimilar relations i := by
  induction relations generalizing acc with
  | nil => simp [labeledSimilar]
  | cons r rs ih =>
    rw [List.foldl_cons, ih]
    unfold bucketStep labeledSimilar
    split_ifs with h1 h2 <;>
      simp_all [labeledSimilar, or_assoc] <;> aesop

/-- C1: for every candidate pool and every set of relation labels, the
three lists returned by _filter_propositions are pairwise disjoint and
obey strict precedence: an id labeled IDENTICAL lands only in the
identical bucket even if also labeled SIMILAR or UNRELATED, an id labeled
SIMILAR but not IDENTICAL lands only in the similar bucket, and any
labeled id not present in the pool lands in no bucket. -/
theorem C1_filter_propositions_precedence (pool : List ℕ)
    (relations : List Relation) (i : ℕ) :
    Disjoint (filter_propositions pool relations).1
      (filter_propositions pool relations).2.1 ∧
    Disjoint (filter_propositions pool relations).1
      (filter_propositions pool relations).2.2 ∧
    Disjoint (filter_propositions pool relations).2.1
      (filter_propositions pool relations).2.2 ∧
    (labeledIdentical relations i → i ∈ pool →
      i ∈ (filter_propositions pool relations).1 ∧
      i ∉ (filter_propositions pool relations).2.1 ∧
      i ∉ (filter_propositions pool relations).2.2) ∧
    (labeledSimilar relations i → ¬ labeledIdentical relations i → i ∈ pool →
      i ∈ (filter_propositions pool relations).2.1 ∧
      i ∉ (filter_propositions pool relations).1 ∧
      i ∉ (filter_propositions pool relations).2.2) ∧
    (i ∉ pool →
      i ∉ (filter_propositions pool relations).1 ∧
      i ∉ (filter_propositions pool relations).2.1 ∧
      i ∉ (filter_propositions pool relations).2.2) := by
  have hI : ∀ j, j ∈ (relationBuckets relations).1 ↔ labeledIdentical relations j := by
    intro j
    rw [relationBuckets, buckets_fst_mem]
    simp
  have hS : ∀ j, j ∈ (relationBuckets relations).2.1 ↔ labeledSimilar relations j := by
    intro j
    rw [relationBuckets, buckets_snd_mem]
    simp
  by_cases hpool : pool = []
  · subst hpool
    simp [filter_propositions]
  · simp only [filter_propositions, if_neg hpool]
    refine ⟨Finset.disjoint_sdiff, ?_, ?_, ?_, ?_, ?_⟩
    · rw [Finset.disjoint_left]
      intro a ha hb
      rw [Finset.mem_sdiff, Finset.mem_sdiff] at hb
      exact hb.1.2 ha
    · rw [Finset.disjoint_left]
      intro a ha hb
      rw [Finset.mem_sdiff, Finset.mem_sdiff] at hb
      rw [Finset.mem_sdiff] at ha
      exact hb.2 ha.1
    · intro hid hin
      refine ⟨Finset.mem_inter.2 ⟨(hI i).2 hid, List.mem_toFinset.2 hin⟩, ?_, ?_⟩
      · rw [Finset.mem_sdiff]
        rintro ⟨-, hni⟩
        exact hni (Finset.mem_inter.2 ⟨(hI i).2 hid, List.mem_toFinset.2 hin⟩)
      · rw [Finset.mem_sdiff, Finset.mem_sdiff]
        rintro ⟨⟨-, hni⟩, -⟩
        exact hni (Finset.mem_inter.2 ⟨(hI i).2 hid, List.mem_toFinset.2 hin⟩)
    · intro hsim hnid hin
      have hiI : i ∉ (relationBuckets relations).1 ∩ pool.toFinset := by
        rw [Finset.mem_inter]
        rintro ⟨hmem, -⟩
        exact hnid ((hI i).1 hmem)
      refine ⟨?_, hiI, ?_⟩
      · rw [Finset.mem_sdiff]
        exact ⟨Finset.mem_inter.2 ⟨(hS i).2 hsim, List.mem_toFinset.2 hin⟩, hiI⟩
      · rw [Finset.mem_sdiff, Finset.mem_sdiff]
        rintro ⟨-, hns⟩
        exact hns (Finset.mem_inter.2 ⟨(hS i).2 hsim, List.mem_toFinset.2 hin⟩)
    · intro hnin
      have hv : i ∉ pool.toFinset := fun h => hnin (List.mem_toFinset.1 h)
      refine ⟨?_, ?_, ?_⟩
      · rw [Finset.mem_inter]
        rintro ⟨-, h⟩
        exact hv h
      · rw [Finset.mem_sdiff, Finset.mem_inter]
        rintro ⟨⟨-, h⟩, -⟩
        exact hv h
      · rw [Finset.mem_sdiff, Finset.mem_sdiff, Finset.mem_inter]
        rintro ⟨⟨⟨-, h⟩, -⟩, -⟩
        exact hv h

/-- Witness for C1 at a concrete pool and label set: id 1 is labeled both
IDENTICAL and SIMILAR and lands only in the identical bucket, id 2 is
labeled SIMILAR only and lands only in the similar bucket, and the
labeled id 99 is not in the pool and lands nowhere. -/
theorem C1_witness :
    (labeledIdentical
        [Relation.mk 1 "IDENTICAL" (some [99]), Relation.mk 1 "SIMILAR" (some [2])] 1 ∧
      (1:ℕ) ∈ [1, 2] ∧
      1 ∈ (filter_propositions [1, 2]
        [Relation.mk 1 "IDENTICAL" (some [99]), Relation.mk 1 "SIMILAR" (some [2])]).1 ∧
      1 ∉ (filter_propositions [1, 2]
        [Relation.mk 1 "IDENTICAL" (some [99]), Relation.mk 1 "SIMILAR" (some [2])]).2.1) ∧
    (labeledSimilar
        [Relation.mk 1 "IDENTICAL" (some [99]), Relation.mk 1 "SIMILAR" (some [2])] 2 ∧
      ¬ labeledIdentical
        [Relation.mk 1 "IDENTICAL" (some [99]), Relation.mk 1 "SIMILAR" (some [2])] 2 ∧
      2 ∈ (filter_propositions [1, 2]
        [Relation.mk 1 "IDENTICAL" (some [99]), Relation.mk 1 "SIMILAR" (some [2])]).2.1) ∧
    ((99:ℕ) ∉ [1, 2] ∧
      99 ∉ (filter_propositions [1, 2]
        [Relation.mk 1 "IDENTICAL" (some [99]), Relation.mk 1 "SIMILAR" (some [2])]).1) := by
  have h99 : ¬ labeledIdentical
      [Relation.mk 1 "IDENTICAL" (some [99]), Relation.mk 1 "SIMILAR" (some [2])] 2 := by
    intro h
    rcases h with ⟨r, hr, hlbl, hmem⟩
    simp only [List.mem_cons, List.not_mem_nil, or_false] at hr
    rcases hr with rfl | rfl
    · simp_all
    · simp_all
  have hid1 : labeledIdentical
      [Relation.mk 1 "IDENTICAL" (some [99]), Relation.mk 1 "SIMILAR" (some [2])] 1 :=
    ⟨Relation.mk 1 "IDENTICAL" (some [99]), by simp, rfl, Or.inl rfl⟩
  have hsim2 : labeledSimilar
      [Relation.mk 1 "IDENTICAL" (some [99]), Relation.mk 1 "SIMILAR" (some [2])] 2 :=
    ⟨Relation.mk 1 "SIMILAR" (some [2]), by simp, rfl, Or.inr (by simp)⟩
  obtain ⟨-, -, -, hA, hB, hC⟩ :=
    C1_filter_propositions_precedence [1, 2]
      [Relation.mk 1 "IDENTICAL" (some [99]), Relation.mk 1 "SIMILAR" (some [2])] 1
  obtain ⟨-, -, -, -, hB2, -⟩ :=
    C1_filter_propositions_precedence [1, 2]
      [Relation.mk 1 "IDENTICAL" (some [99]), Relation.mk 1 "SIMILAR" (some [2])] 2
  obtain ⟨-, -, -, -, -, hC99⟩ :=
    C1_filter_propositions_precedence [1, 2]
      [Relation.mk 1 "IDENTICAL" (some [99]), Relation.mk 1 "SIMILAR" (some [2])] 99
  obtain ⟨h1in, h1notS, -⟩ := hA hid1 (by simp)
  obtain ⟨h2in, -, -⟩ := hB2 hsim2 h99 (by simp)
  obtain ⟨h99not, -, -⟩ := hC99 (by simp)
  exact ⟨⟨hid1, by simp, h1in, h1notS⟩, ⟨hsim2, h99, h2in⟩, ⟨by simp, h99not⟩⟩

lemma filter_fst_subset_pool (pool : List ℕ) (relations : List Relation) (i : ℕ)
    (h : i ∈ (filter_propositions pool relations).1) : i ∈ pool := by
  unfold filter_propositions at h
  split_ifs at h with hp
  · simp at h
  · exact List.mem_toFinset.1 (Finset.mem_inter.1 h).2

lemma filter_fst_not_thd (pool : List ℕ) (relations : List Relation) (i : ℕ)
    (h : i ∈ (filter_propositions pool relations).1) :
    i ∉ (filter_propositions pool relations).2.2 := by
  unfold filter_propositions at h ⊢
  split_ifs at h ⊢ with hp
  · simp at h
  · rw [Finset.mem_sdiff, Finset.mem_sdiff]
    rintro ⟨⟨-, hni⟩, -⟩
    exact hni h

/-- The set of claim ids submitted to the Decision Engine over one whole
reconciliation cycle, composed from _process_batch (src/gum/gum.py lines
283-341): the candidate pool is the search hits plus the freshly drafted
claims, _filter_propositions buckets it, _handle_identical submits
nothing, _handle_similar submits exactly the claims it creates (ids
revisedIds, created only when the similar bucket is non-empty), and
_handle_different submits every member of the different bucket; all
submissions happen only when the mixed-initiative engine is enabled. -/
def cycleSubmitted (draftIds hitIds : List ℕ) (relations : List Relation)
    (revisedIds : List ℕ) (enableMI : Bool) : Finset ℕ :=
  let pool := hitIds ++ draftIds
  let buckets := filter_propositions pool relations
  let fromSimilar :=
    if buckets.2.1 ≠ ∅ ∧ enableMI = true then revisedIds.toFinset else ∅
  let fromDifferent := if enableMI = true then buckets.2.2 else ∅
  fromSimilar ∪ fromDifferent

/-- C3 amended: over one whole reconciliation cycle a claim is submitted
to the Decision Engine only if it was just produced by a SIMILAR-cluster
merge or lies in the UNRELATED bucket (which holds the freshly drafted
claims labeled UNRELATED but may equally hold pre-existing corpus claims
that entered the pool as search hits and were labeled UNRELATED); no
claim in the IDENTICAL bucket is ever submitted.  The original claim that
no pre-existing search hit is ever submitted is false: see the
counterexample. -/
theorem C3_cycle_submission_sources (draftIds hitIds : List ℕ)
    (relations : List Relation) (revisedIds : List ℕ) (i : ℕ)
    (hfresh : ∀ j ∈ revisedIds, j ∉ hitIds ++ draftIds) :
    (i ∈ cycleSubmitted draftIds hitIds relations revisedIds true →
      i ∈ revisedIds ∨
        i ∈ (filter_propositions (hitIds ++ draftIds) relations).2.2) ∧
    (i ∈ (filter_propositions (hitIds ++ draftIds) relations).1 →
      i ∉ cycleSubmitted draftIds hitIds relations revisedIds true) := by
  constructor
  · intro h
    simp only [cycleSubmitted, Finset.mem_union, eq_self_iff_true, and_true,
      if_true] at h
    rcases h with h | h
    · split_ifs at h with hc
      · exact Or.inl (List.mem_toFinset.1 h)
      · simp at h
    · exact Or.inr h
  · intro hid hsub
    simp only [cycleSubmitted, Finset.mem_union, eq_self_iff_true, and_true,
      if_true] at hsub
    rcases hsub with h | h
    · split_ifs at h with hc
      · exact hfresh i (List.mem_toFinset.1 h)
          (filter_fst_subset_pool (hitIds ++ draftIds) relations i hid)
      · simp at h
    · exact filter_fst_not_thd (hitIds ++ draftIds) relations i hid h

/-- C3 counterexample: claim id 100 is a pre-existing corpus claim that
entered the pool as a search hit, is labeled UNRELATED, is neither a fresh
draft (the only draft is id 1) nor produced by a merge (no revised claims
exist), yet it is submitted to the Decision Engine by _handle_different. -/
theorem C3_counterexample :
    (100:ℕ) ∈ [100] ∧
    (100:ℕ) ∉ [1] ∧
    (100:ℕ) ∉ ([] : List ℕ) ∧
    100 ∈ cycleSubmitted [1] [100] [Relation.mk 100 "UNRELATED" none] [] true := by
  refine ⟨by decide, by decide, by decide, ?_⟩
  decide

/-- Witness for C3 amended at a concrete cycle: with drafts [1], hits
[100], one UNRELATED label on 100 and one merge output 7, every
submission is a merge output or lies in the UNRELATED bucket, and
IDENTICAL-bucket members are never submitted. -/
theorem C3_witness :
    ((100:ℕ) ∈ cycleSubmitted [1] [100] [Relation.mk 100 "UNRELATED" none] [7] true →
      (100:ℕ) ∈ [7] ∨
        100 ∈ (filter_propositions ([100] ++ [1])
          [Relation.mk 100 "UNRELATED" none]).2.2) ∧
    ((100:ℕ) ∈ (filter_propositions ([100] ++ [1])
        [Relation.mk 100 "UNRELATED" none]).1 →
      (100:ℕ) ∉ cycleSubmitted [1] [100] [Relation.mk 100 "UNRELATED" none] [7] true) :=
  C3_cycle_submission_sources [1] [100] [Relation.mk 100 "UNRELATED" none] [7] 100
    (by decide)

/-! ## Link-table attach (src/gum/gum.py lines 655-662) -/

/-- _attach_obs_if_missing issues INSERT OR IGNORE into the
observation_proposition link table.  Modelled from the spec for the part
living in models.py (not under src/): the link table's
(observation_id, proposition_id) pair is unique (spec section 3), so the
insert adds the row only when the pair is not yet present and never
errors on a duplicate. -/
def attach_obs_if_missing (links : List (ℕ × ℕ)) (obsId propId : ℕ) :
    List (ℕ × ℕ) :=
  if (obsId, propId) ∈ links then links else links ++ [(obsId, propId)]

/-- C8: attaching the same (observation, claim) pair twice leaves the
link table in the same state as attaching it once, at most one link row
ever exists per pair (the invariant is preserved by every attach), and
the duplicate attach is a total function that never errors. -/
theorem C8_attach_idempotent (links : List (ℕ × ℕ)) (obsId propId : ℕ)
    (huniq : ∀ q : ℕ × ℕ, links.count q ≤ 1) :
    attach_obs_if_missing (attach_obs_if_missing links obsId propId) obsId propId =
      attach_obs_if_missing links obsId propId ∧
    (obsId, propId) ∈ attach_obs_if_missing links obsId propId ∧
    (∀ q : ℕ × ℕ, (attach_obs_if_missing links obsId propId).count q ≤ 1) := by
  have hattach_mem : ∀ L : List (ℕ × ℕ), (obsId, propId) ∈ L →
      attach_obs_if_missing L obsId propId = L := by
    intro L hL
    unfold attach_obs_if_missing
    rw [if_pos hL]
  have hmem1 : (obsId, propId) ∈ attach_obs_if_missing links obsId propId := by
    unfold attach_obs_if_missing
    split_ifs with h1
    · exact h1
    · simp
  have hcount : ∀ q : ℕ × ℕ,
      (attach_obs_if_missing links obsId propId).count q ≤ 1 := by
    intro q
    unfold attach_obs_if_missing
    split_ifs with h1
    · exact huniq q
    · rw [List.count_append]
      by_cases hq : q = (obsId, propId)
      · subst hq
        have h0 : links.count (obsId, propId) = 0 := List.count_eq_zero.2 h1
        simp [h0]
      · have h0 : ([(obsId, propId)] : List (ℕ × ℕ)).count q = 0 :=
          List.count_eq_zero.2 (by simp [hq])
        rw [h0]
        simpa using huniq q
  exact ⟨hattach_mem _ hmem1, hmem1, hcount⟩

/-- Witness for C8 at a concrete link table: the table [(1, 2)] already
satisfies the uniqueness invariant, and attaching (1, 2) twice equals
attaching it once. -/
theorem C8_witness :
    attach_obs_if_missing (attach_obs_if_missing [(1, 2)] 1 2) 1 2 =
      attach_obs_if_missing [(1, 2)] 1 2 ∧
    ((1:ℕ), (2:ℕ)) ∈ attach_obs_if_missing [(1, 2)] 1 2 ∧
    (∀ q : ℕ × ℕ, (attach_obs_if_missing [(1, 2)] 1 2).count q ≤ 1) :=
  C8_attach_idempotent [(1, 2)] 1 2 (by
    intro q
    by_cases hq : q = (1, 2) <;> simp [hq, List.count_cons])

/-! ## SIMILAR-cluster merge (src/gum/gum.py lines 526-570) -/

/-- One revised proposition as returned by _revise_propositions (a JSON
object with proposition, reasoning and optional confidence and decay). -/
structure RevisedItem where
  proposition : String
  reasoning : String
  confidence : Option ℚ
  decay : Option ℚ
deriving DecidableEq

/-- Modelled from the spec: models.py (class Proposition as a table row)
is not under src/.  A persisted claim row: id, text, reasoning, optional
confidence and decay, revision_group (lineage id) and version (spec
section 3). -/
structure ClaimRow where
  id : ℕ
  text : String
  reasoning : String
  confidence : Option ℚ
  decay : Option ℚ
  revision_group : ℕ
  version : ℕ
deriving DecidableEq

/-- Modelled from the spec: the datastore of section 3 — claim rows plus
the observation_proposition link table whose rows pair an observation id
with a claim id. -/
structure Store where
  props : List ClaimRow
  links : List (ℕ × ℕ)
deriving DecidableEq

/-- Modelled from the spec: get_related_observations (db_utils.py, not
under src/) returns the observations linked to the given claim via the
link table. -/
def get_related_observations (db : Store) (pid : ℕ) : List ℕ :=
  (db.links.filter (fun l => l.2 == pid)).map (fun l => l.1)

/-- The rel_obs set built by _handle_similar: the union of the
observations linked to any claim of the cluster with the observations of
the current batch. -/
def related_obs_union (db : Store) (simIds : List ℕ)
    (observations : List ℕ) : Finset ℕ :=
  simIds.foldl (fun acc pid => acc ∪ (get_related_observations db pid).toFinset) ∅
    ∪ observations.toFinset

/-- _handle_similar (src/gum/gum.py lines 526-570): on a non-empty
cluster, gather the observation union, delete every cluster claim (the
link rows cascade), create one fresh claim row per revised item — all
with version 1 and one shared revision_group g, linked to the whole
observation union — and submit each created claim to the Decision Engine
when mixed initiative is enabled.  The fresh row ids newIds and the fresh
group g stand for the database-assigned ids and the uuid4 value. -/
def handle_similar (db : Store) (similar : List ClaimRow)
    (observations : List ℕ) (revisedItems : List RevisedItem) (g : ℕ)
    (newIds : List ℕ) (enableMI : Bool) : Store × List ℕ :=
  if similar = [] then (db, [])
  else
    let simIds := similar.map (fun p => p.id)
    let rel_obs := related_obs_union db simIds observations
    let props := db.props.filter (fun p => !(simIds.contains p.id))
    let links := db.links.filter (fun l => !(simIds.contains l.2))
    let newRows := (revisedItems.zip newIds).map (fun x =>
      ClaimRow.mk x.2 x.1.proposition x.1.reasoning x.1.confidence x.1.decay g 1)
    let newLinks := (revisedItems.zip newIds).flatMap (fun x =>
      (rel_obs.sort (fun a b => a ≤ b)).map (fun o => (o, x.2)))
    let submitted := if enableMI then newRows.map (fun p => p.id) else []
    ({ props := props ++ newRows, links := links ++ newLinks }, submitted)

lemma mem_get_related (db : Store) (pid o : ℕ) :
    o ∈ get_related_observations db pid ↔ (o, pid) ∈ db.links := by
  unfold get_related_observations
  constructor
  · intro h
    rcases List.mem_map.1 h with ⟨l, hl, rfl⟩
    rcases List.mem_filter.1 hl with ⟨hmem, hq⟩
    have h2 : l.2 = pid := by simpa using hq
    have h3 : (l.1, l.2) ∈ db.links := by
      rw [Prod.mk.eta]
      exact hmem
    rw [h2] at h3
    exact h3
  · intro h
    exact List.mem_map.2 ⟨(o, pid), List.mem_filter.2 ⟨h, by simp⟩, rfl⟩

lemma relObs_fold_mem (db : Store) (simIds : List ℕ) (init : Finset ℕ) (o : ℕ) :
    o ∈ simIds.foldl
        (fun acc pid => acc ∪ (get_related_observations db pid).toFinset) init ↔
      o ∈ init ∨ ∃ pid ∈ simIds, (o, pid) ∈ db.links := by
  induction simIds generalizing init with
  | nil => simp
  | cons p ps ih =>
    rw [List.foldl_cons, ih]
    simp only [Finset.mem_union, List.mem_toFinset, mem_get_related,
      List.mem_cons]
    constructor
    · rintro ((h | h) | ⟨pid, hpid, hlink⟩)
      · exact Or.inl h
      · exact Or.inr ⟨p, Or.inl rfl, h⟩
      · exact Or.inr ⟨pid, Or.inr hpid, hlink⟩
    · rintro (h | ⟨pid, rfl | hpid, hlink⟩)
      · exact Or.inl (Or.inl h)
      · exact Or.inl (Or.inr hlink)
      · exact Or.inr ⟨pid, hpid, hlink⟩

lemma mem_related_obs_union (db : Store) (similar : List ClaimRow)
    (observations : List ℕ) (o : ℕ) :
    o ∈ related_obs_union db (similar.map (fun p => p.id)) observations ↔
      (∃ p ∈ similar, (o, p.id) ∈ db.links) ∨ o ∈ observations := by
  unfold related_obs_union
  rw [Finset.mem_union, relObs_fold_mem]
  simp only [Finset.not_mem_empty, false_or, List.mem_toFinset, List.mem_map]
  constructor
  · rintro (⟨pid, ⟨p, hp, rfl⟩, hlink⟩ | h)
    · exact Or.inl ⟨p, hp, hlink⟩
    · exact Or.inr h
  · rintro (⟨p, hp, hlink⟩ | h)
    · exact Or.inl ⟨p.id, ⟨p, hp, rfl⟩, hlink⟩
    · exact Or.inr h

/-- C2: for every non-empty SIMILAR cluster, given that the revision call
returns at least one revised claim (the Semantic Inference Service
contract of spec section 4.2 step 7), that the cluster claims are rows of
the store and that the database-assigned ids and the generated
revision_group are fresh, _handle_similar deletes every claim of the
cluster, creates each revised claim with version 1 and the one shared
fresh revision_group, links each of them to exactly the union of the
observations previously linked to any cluster member and the batch's
observations, submits each revised claim to the Decision Engine, and
consequently every observation linked to any claim of the cluster stays
linked to at least one resulting revised claim. -/
theorem C2_handle_similar_merge (db : Store) (similar : List ClaimRow)
    (observations : List ℕ) (revisedItems : List RevisedItem) (g : ℕ)
    (newIds : List ℕ)
    (hsim_ne : similar ≠ [])
    (hrev_ne : revisedItems ≠ [])
    (hlen : newIds.length = revisedItems.length)
    (hsim_in : ∀ p ∈ similar, p ∈ db.props)
    (hg : ∀ p ∈ db.props, p.revision_group ≠ g)
    (hfresh_props : ∀ j ∈ newIds, ∀ p ∈ db.props, p.id ≠ j)
    (hfresh_links : ∀ j ∈ newIds, ∀ l ∈ db.links, l.2 ≠ j) :
    (∀ p ∈ similar,
      ∀ q ∈ (handle_similar db similar observations revisedItems g newIds true).1.props,
        q.id ≠ p.id) ∧
    (∀ q ∈ (handle_similar db similar observations revisedItems g newIds true).1.props,
      q ∈ db.props ∨ (q.version = 1 ∧ q.revision_group = g ∧ q.id ∈ newIds)) ∧
    (handle_similar db similar observations revisedItems g newIds true).2 = newIds ∧
    (∀ j ∈ newIds, ∀ o : ℕ,
      ((o, j) ∈ (handle_similar db similar observations revisedItems g newIds true).1.links ↔
        ((∃ p ∈ similar, (o, p.id) ∈ db.links) ∨ o ∈ observations))) ∧
    (∀ o : ℕ, (∃ p ∈ similar, (o, p.id) ∈ db.links) →
      ∃ j ∈ newIds,
        (o, j) ∈ (handle_similar db similar observations revisedItems g newIds true).1.links) ∧
    (∀ q ∈ (handle_similar db similar observations revisedItems g newIds true).1.props,
      q.revision_group = g → q.version = 1 ∧ q.id ∈ newIds) := by
  have hR : handle_similar db similar observations revisedItems g newIds true =
      (Store.mk
        (db.props.filter (fun p => !((similar.map (fun p => p.id)).contains p.id)) ++
          (revisedItems.zip newIds).map (fun x =>
            ClaimRow.mk x.2 x.1.proposition x.1.reasoning x.1.confidence x.1.decay g 1))
        (db.links.filter (fun l => !((similar.map (fun p => p.id)).contains l.2)) ++
          (revisedItems.zip newIds).flatMap (fun x =>
            ((related_obs_union db (similar.map (fun p => p.id)) observations).sort
              (fun a b => a ≤ b)).map (fun o => (o, x.2)))),
       ((revisedItems.zip newIds).map (fun x =>
          ClaimRow.mk x.2 x.1.proposition x.1.reasoning x.1.confidence x.1.decay g 1)).map
         (fun p => p.id)) := by
    unfold handle_similar
    rw [if_neg hsim_ne]
    rfl
  have hids : ((revisedItems.zip newIds).map (fun x =>
      ClaimRow.mk x.2 x.1.proposition x.1.reasoning x.1.confidence x.1.decay g 1)).map
        (fun p => p.id) = newIds := by
    rw [List.map_map]
    have hcomp : ((fun p : ClaimRow => p.id) ∘ (fun x : RevisedItem × ℕ =>
        ClaimRow.mk x.2 x.1.proposition x.1.reasoning x.1.confidence x.1.decay g 1)) =
        Prod.snd := rfl
    rw [hcomp]
    exact List.map_snd_zip revisedItems newIds (le_of_eq hlen)
  have hlinkIff : ∀ j ∈ newIds, ∀ o : ℕ,
      ((o, j) ∈ (handle_similar db similar observations revisedItems g newIds true).1.links ↔
        ((∃ p ∈ similar, (o, p.id) ∈ db.links) ∨ o ∈ observations)) := by
    intro j hj o
    rw [hR]
    simp only [List.mem_append]
    constructor
    · rintro (h | h)
      · rcases List.mem_filter.1 h with ⟨hmem, -⟩
        exact absurd rfl (hfresh_links j hj (o, j) hmem)
      · rcases List.mem_flatMap.1 h with ⟨x, hx, hmem⟩
        rcases List.mem_map.1 hmem with ⟨o2, ho2, heq⟩
        rw [Prod.mk.injEq] at heq
        obtain ⟨h1, -⟩ := heq
        rw [← h1]
        exact (mem_related_obs_union db similar observations o2).1
          ((Finset.mem_sort _).1 ho2)
    · intro h
      have hobs : o ∈ related_obs_union db (similar.map (fun p => p.id)) observations :=
        (mem_related_obs_union db similar observations o).2 h
      have hj2 : j ∈ ((revisedItems.zip newIds).map Prod.snd) := by
        rw [List.map_snd_zip revisedItems newIds (le_of_eq hlen)]
        exact hj
      rcases List.mem_map.1 hj2 with ⟨x, hx, hxj⟩
      refine Or.inr (List.mem_flatMap.2 ⟨x, hx, List.mem_map.2 ⟨o, ?_, ?_⟩⟩)
      · exact (Finset.mem_sort _).2 hobs
      · rw [hxj]
  refine ⟨?_, ?_, ?_, hlinkIff, ?_, ?_⟩
  · intro p hp q hq
    rw [hR] at hq
    simp only [List.mem_append] at hq
    rcases hq with hq | hq
    · rcases List.mem_filter.1 hq with ⟨-, hbool⟩
      intro hqp
      simp at hbool
      exact hbool p hp hqp.symm
    · rcases List.mem_map.1 hq with ⟨⟨a, b⟩, hx, rfl⟩
      have hx2 : b ∈ newIds := (List.of_mem_zip hx).2
      exact fun hcontr => hfresh_props b hx2 p (hsim_in p hp) hcontr.symm
  · intro q hq
    rw [hR] at hq
    simp only [List.mem_append] at hq
    rcases hq with hq | hq
    · exact Or.inl (List.mem_filter.1 hq).1
    · rcases List.mem_map.1 hq with ⟨⟨a, b⟩, hx, rfl⟩
      have hx2 : b ∈ newIds := (List.of_mem_zip hx).2
      exact Or.inr ⟨rfl, rfl, hx2⟩
  · rw [hR]
    exact hids
  · intro o h
    have hne : newIds ≠ [] := by
      intro hnil
      apply hrev_ne
      have : revisedItems.length = 0 := by
        rw [← hlen, hnil]
        rfl
      exact List.length_eq_zero.1 this
    rcases List.exists_mem_of_ne_nil newIds hne with ⟨j, hj⟩
    exact ⟨j, hj, (hlinkIff j hj o).2 (Or.inl h)⟩
  · intro q hq hqg
    rw [hR] at hq
    simp only [List.mem_append] at hq
    rcases hq with hq | hq
    · exact absurd hqg (hg q (List.mem_filter.1 hq).1)
    · rcases List.mem_map.1 hq with ⟨⟨a, b⟩, hx, rfl⟩
      exact ⟨rfl, (List.of_mem_zip hx).2⟩

/-- A one-claim store for the C2 witness: claim 1 (revision_group 0) is
linked to observation 10. -/
def dbW : Store :=
  { props := [ClaimRow.mk 1 "a" "b" none none 0 1], links := [(10, 1)] }

/-- The SIMILAR cluster of the C2 witness: just claim 1 of dbW. -/
def simW : List ClaimRow := [ClaimRow.mk 1 "a" "b" none none 0 1]

/-- The revision returned by the inference service in the C2 witness. -/
def revW : List RevisedItem := [RevisedItem.mk "c" "d" (some 5) none]

/-- Witness for C2 at a concrete merge: cluster {claim 1} with linked
observation 10, batch observation 20, one revised claim with fresh id 5
and fresh revision_group 7. -/
theorem C2_witness :
    (∀ p ∈ simW, ∀ q ∈ (handle_similar dbW simW [20] revW 7 [5] true).1.props,
      q.id ≠ p.id) ∧
    (∀ q ∈ (handle_similar dbW simW [20] revW 7 [5] true).1.props,
      q ∈ dbW.props ∨ (q.version = 1 ∧ q.revision_group = 7 ∧ q.id ∈ [5])) ∧
    (handle_similar dbW simW [20] revW 7 [5] true).2 = [5] ∧
    (∀ j ∈ [5], ∀ o : ℕ,
      ((o, j) ∈ (handle_similar dbW simW [20] revW 7 [5] true).1.links ↔
        ((∃ p ∈ simW, (o, p.id) ∈ dbW.links) ∨ o ∈ [20]))) ∧
    (∀ o : ℕ, (∃ p ∈ simW, (o, p.id) ∈ dbW.links) →
      ∃ j ∈ [5], (o, j) ∈ (handle_similar dbW simW [20] revW 7 [5] true).1.links) ∧
    (∀ q ∈ (handle_similar dbW simW [20] revW 7 [5] true).1.props,
      q.revision_group = 7 → q.version = 1 ∧ q.id ∈ [5]) :=
  C2_handle_similar_merge dbW simW [20] revW 7 [5]
    (by decide) (by decide) (by decide) (by decide) (by decide)
    (by decide) (by decide)

/-! ## Observation batcher and batch processing (src/gum/gum.py lines 283-341) -/

/-- One buffered observation as handled by _process_batch: a local id and
the payload fields observer_name, content, content_type. -/
structure BatchItem where
  id : ℕ
  observer_name : String
  content : String
  content_type : String
deriving DecidableEq

/-- Modelled from the spec: batcher.py (class ObservationBatcher) is not
under src/.  Its buffer state: the next local id to hand out and the
in-memory buffer (spec section 4.1). -/
structure Batcher where
  nextId : ℕ
  buffer : List BatchItem
deriving DecidableEq

/-- Modelled from the spec: ObservationBatcher.push appends to the
in-memory buffer and immediately returns a fresh local id (spec section
4.1); a re-pushed item therefore receives a new local id. -/
def Batcher.push (b : Batcher) (observer_name content content_type : String) :
    ℕ × Batcher :=
  (b.nextId,
   { nextId := b.nextId + 1
     buffer := b.buffer ++ [BatchItem.mk b.nextId observer_name content content_type] })

/-- The retry loop of the except-branch of _process_batch: re-push every
observation of the failed batch, payload by payload. -/
def pushAll (b : Batcher) (batch : List BatchItem) : Batcher :=
  batch.foldl
    (fun acc obs => (acc.push obs.observer_name obs.content obs.content_type).2) b

/-- _process_batch (src/gum/gum.py lines 283-341).  All datastore writes
of a batch happen inside the single transaction opened by the _session
context manager (gum.py lines 649-653); the commit/rollback machinery is
SQLAlchemy's, outside src/, so the all-or-nothing transaction is modelled
from spec section 4.2 step 9: the body either produces a new datastore
state or raises.  On success the new state is committed; on any exception
no write becomes visible and every observation of the batch is re-pushed
onto the batcher. -/
def process_batch {δ : Type} (ds : δ) (b : Batcher) (batch : List BatchItem)
    (bodyResult : Except String δ) : δ × Batcher :=
  match bodyResult with
  | .ok ds2 => (ds2, b)
  | .error _ => (ds, pushAll b batch)

lemma mem_buffer_pushAll (batch : List BatchItem) (b : Batcher) (it : BatchItem)
    (h : it ∈ b.buffer) : it ∈ (pushAll b batch).buffer := by
  induction batch generalizing b with
  | nil => exact h
  | cons o rest ih =>
    exact ih _ (List.mem_append_left _ h)

lemma pushAll_nextId_ge (batch : List BatchItem) (b : Batcher) :
    b.nextId ≤ (pushAll b batch).nextId := by
  induction batch generalizing b with
  | nil => exact le_rfl
  | cons o rest ih =>
    show b.nextId ≤
      (pushAll (b.push o.observer_name o.content o.content_type).2 rest).nextId
    exact le_trans (Nat.le_succ _)
      (ih (b.push o.observer_name o.content o.content_type).2)

lemma pushAll_spec (batch : List BatchItem) (b : Batcher) :
    ∀ obs ∈ batch, ∃ it ∈ (pushAll b batch).buffer,
      it.observer_name = obs.observer_name ∧ it.content = obs.content ∧
      it.content_type = obs.content_type ∧ b.nextId ≤ it.id := by
  induction batch generalizing b with
  | nil =>
    intro obs h
    simp at h
  | cons o rest ih =>
    intro obs hobs
    rcases List.mem_cons.1 hobs with rfl | hmem
    · refine ⟨BatchItem.mk b.nextId obs.observer_name obs.content obs.content_type,
        ?_, rfl, rfl, rfl, le_rfl⟩
      exact mem_buffer_pushAll rest _ _ (List.mem_append_right _ (by simp))
    · rcases ih _ obs hmem with ⟨it, hit, h1, h2, h3, h4⟩
      exact ⟨it, hit, h1, h2, h3, le_trans (Nat.le_succ _) h4⟩

/-- C4: if the transaction body of a batch raises, the batch is aborted
atomically — the datastore is exactly what it was before the batch — and
every observation of the failed batch is re-pushed onto the Batcher with
its payload intact and a new local id different from its old one (given
the invariant that buffered ids were handed out by earlier pushes, i.e.
are below the batcher's next id); a successful body commits its state. -/
theorem C4_process_batch_abort {δ : Type} (ds : δ) (b : Batcher)
    (batch : List BatchItem) (e : String)
    (hids : ∀ obs ∈ batch, obs.id < b.nextId) :
    (process_batch ds b batch (Except.error e)).1 = ds ∧
    (∀ ds2 : δ, (process_batch ds b batch (Except.ok ds2)).1 = ds2) ∧
    (∀ obs ∈ batch, ∃ it ∈ (process_batch ds b batch (Except.error e)).2.buffer,
      it.observer_name = obs.observer_name ∧ it.content = obs.content ∧
      it.content_type = obs.content_type ∧ it.id ≠ obs.id) := by
  refine ⟨rfl, fun ds2 => rfl, ?_⟩
  intro obs hobs
  rcases pushAll_spec batch b obs hobs with ⟨it, hit, h1, h2, h3, h4⟩
  refine ⟨it, hit, h1, h2, h3, ?_⟩
  have := hids obs hobs
  omega

/-- Witness for C4 at a concrete failed batch: the datastore {"w"} is
untouched and the single observation (id 0, payload "obs"/"c"/"t") is
re-pushed with the new local id 1. -/
theorem C4_witness :
    (process_batch ["w"] (Batcher.mk 1 []) [BatchItem.mk 0 "obs" "c" "t"]
      (Except.error "boom")).1 = ["w"] ∧
    (∀ ds2 : List String,
      (process_batch ["w"] (Batcher.mk 1 []) [BatchItem.mk 0 "obs" "c" "t"]
        (Except.ok ds2)).1 = ds2) ∧
    (∀ obs ∈ [BatchItem.mk 0 "obs" "c" "t"],
      ∃ it ∈ (process_batch ["w"] (Batcher.mk 1 []) [BatchItem.mk 0 "obs" "c" "t"]
          (Except.error "boom")).2.buffer,
        it.observer_name = obs.observer_name ∧ it.content = obs.content ∧
        it.content_type = obs.content_type ∧ it.id ≠ obs.id) :=
  C4_process_batch_abort ["w"] (Batcher.mk 1 []) [BatchItem.mk 0 "obs" "c" "t"]
    "boom" (by decide)
